import Mathlib

/-!
Verification of the product-analytics toolkit.

This file embeds the two algorithmic parts of the repository in Lean:

* `src/ab_testing/ab_test_framework.py`, method
  `ABTestFramework.run_statistical_test` — a two-proportion z-test over
  conversion counts extracted from a dataframe of event rows; and
* `src/pm_tools/feature_prioritization_RICE.py`, methods
  `RICEPrioritization.add_feature` and `get_prioritized_list`.

Numeric values are modelled over the real numbers: `scipy.stats.norm.cdf`
is modelled as the exact cumulative distribution function of the standard
normal law `ProbabilityTheory.gaussianReal 0 1`.  Python's silent
float division by zero (NumPy scalars yield NaN or infinity without
raising) is modelled by Lean's `x / 0 = 0` junk-value convention, while a
division of plain Python integers by zero, which raises
`ZeroDivisionError`, is modelled with an `Except` error.
-/

open MeasureTheory ProbabilityTheory Set

open scoped NNReal

/-- The standard normal cumulative distribution function, modelling
`scipy.stats.norm.cdf`. -/
noncomputable def normCdf (x : ℝ) : ℝ := ((gaussianReal 0 1) (Iic x)).toReal

/-- A row of the dataframe loaded by `ABTestFramework.__init__`; only the
columns read by `run_statistical_test` are modelled. -/
structure EventRow where
  session_id : ℕ
  conversion : ℕ
  experiment_group : String
deriving DecidableEq

/-- `self.df[self.df['experiment_group'] == g]`. -/
def groupRows (df : List EventRow) (g : String) : List EventRow :=
  df.filter (fun r => r.experiment_group == g)

/-- `rows['conversion'].sum()`. -/
def convSum (rows : List EventRow) : ℕ :=
  (rows.map (fun r => r.conversion)).sum

/-- `rows['session_id'].nunique()`. -/
def sessionNunique (rows : List EventRow) : ℕ :=
  ((rows.map (fun r => r.session_id)).dedup).length

/-- The dictionary returned by `run_statistical_test` (field names follow
the source's dict keys; `statistically_significant` is the truth of the
comparison `p_value < alpha`). -/
structure TestResult where
  control_rate : ℝ
  treatment_rate : ℝ
  lift_percent : ℝ
  z_score : ℝ
  p_value : ℝ
  statistically_significant : Prop

/-- `p_control = control_conv / control_total` (and likewise for the
treatment group): NumPy scalar division, which never raises. -/
noncomputable def conversionRate (conv total : ℕ) : ℝ := (conv : ℝ) / (total : ℝ)

/-- `p_pooled = (control_conv + treatment_conv) / (control_total + treatment_total)`. -/
noncomputable def pPooled (c_s c_t t_s t_t : ℕ) : ℝ :=
  ((c_s : ℝ) + (t_s : ℝ)) / ((c_t : ℝ) + (t_t : ℝ))

/-- `se = np.sqrt(p_pooled * (1 - p_pooled) * (1/control_total + 1/treatment_total))`. -/
noncomputable def standardError (c_s c_t t_s t_t : ℕ) : ℝ :=
  Real.sqrt (pPooled c_s c_t t_s t_t * (1 - pPooled c_s c_t t_s t_t) *
    (1 / (c_t : ℝ) + 1 / (t_t : ℝ)))

/-- The arithmetic core of `run_statistical_test`, lines 31-48 of
`ab_test_framework.py`, over already-extracted counts.  Matches the source
line by line; divisions by zero produce junk values (NaN in the float
implementation, `0` in this real-number model) rather than raising. -/
noncomputable def run_z_test_core (c_s c_t t_s t_t : ℕ) (alpha : ℝ) : TestResult :=
  let p_control := conversionRate c_s c_t
  let p_treatment := conversionRate t_s t_t
  let se := standardError c_s c_t t_s t_t
  let z_score := (p_treatment - p_control) / se
  let p_value := 2 * (1 - normCdf |z_score|)
  let lift := ((p_treatment - p_control) / p_control) * 100
  { control_rate := p_control
    treatment_rate := p_treatment
    lift_percent := lift
    z_score := z_score
    p_value := p_value
    statistically_significant := p_value < alpha }

/-- The single exception the method can raise: `1/control_total` and
`1/treatment_total` divide plain Python integers, so a zero group total
raises `ZeroDivisionError` at the standard-error line.  (All other
divisions involve NumPy scalars and silently produce NaN or infinity.) -/
inductive PyError where
  | zeroDivisionError
deriving DecidableEq

/-- `run_statistical_test` over pre-extracted counts: raises
`ZeroDivisionError` exactly when a group total is zero (from the plain
integer divisions `1/control_total + 1/treatment_total`), otherwise
returns the populated result dictionary.  No other validation exists in
the source. -/
noncomputable def run_statistical_test_counts (c_s c_t t_s t_t : ℕ) (alpha : ℝ) :
    Except PyError TestResult :=
  if c_t = 0 ∨ t_t = 0 then Except.error PyError.zeroDivisionError
  else Except.ok (run_z_test_core c_s c_t t_s t_t alpha)

/-- The `ABTestFramework` object: it holds only the loaded dataframe. -/
structure ABTestFramework where
  df : List EventRow

/-- The aggregation performed by lines 22-28 of the method: the four
counts `(control_conv, control_total, treatment_conv, treatment_total)`. -/
def observedCounts (fw : ABTestFramework) : ℕ × ℕ × ℕ × ℕ :=
  (convSum (groupRows fw.df "control"),
   sessionNunique (groupRows fw.df "control"),
   convSum (groupRows fw.df "treatment"),
   sessionNunique (groupRows fw.df "treatment"))

/-- `ABTestFramework.run_statistical_test(alpha)`: extract the four counts
from the dataframe, then run the z-test arithmetic. -/
noncomputable def run_statistical_test (fw : ABTestFramework) (alpha : ℝ) :
    Except PyError TestResult :=
  run_statistical_test_counts (observedCounts fw).1 (observedCounts fw).2.1
    (observedCounts fw).2.2.1 (observedCounts fw).2.2.2 alpha

/-- The method as a state transformer on the `ABTestFramework` object: the
body only reads `self.df` (filters and aggregations return fresh objects),
so the object after the call is the object before it. -/
noncomputable def run_statistical_test_method (fw : ABTestFramework) (alpha : ℝ) :
    Except PyError TestResult × ABTestFramework :=
  (run_statistical_test fw alpha, fw)

/-! ### RICE prioritization (`feature_prioritization_RICE.py`) -/

/-- The dictionary appended by `RICEPrioritization.add_feature`. -/
structure Feature where
  name : String
  reach : ℚ
  impact : ℚ
  confidence : ℚ
  effort : ℚ
  rice_score : ℚ
deriving DecidableEq

instance : Inhabited Feature := ⟨⟨"", 0, 0, 0, 0, 0⟩⟩

/-- Python's `round(x, 2)`: round to two decimal places, ties to the even
hundredth (banker's rounding, as documented for Python's built-in
`round`). -/
def pyRound2 (x : ℚ) : ℚ :=
  (if 100 * x - (⌊100 * x⌋ : ℚ) < 1 / 2 then ((⌊100 * x⌋ : ℤ) : ℚ)
   else if 1 / 2 < 100 * x - (⌊100 * x⌋ : ℚ) then ((⌊100 * x⌋ : ℤ) : ℚ) + 1
   else if Even (⌊100 * x⌋ : ℤ) then ((⌊100 * x⌋ : ℤ) : ℚ)
   else ((⌊100 * x⌋ : ℤ) : ℚ) + 1) / 100

/-- The `RICEPrioritization` object: it holds only the feature list. -/
structure RICEPrioritization where
  features : List Feature
deriving DecidableEq

/-- `RICEPrioritization.add_feature`: computes
`rice_score = (reach * impact * (confidence/100)) / effort` and appends the
feature dictionary, storing `round(rice_score, 2)`. -/
def add_feature (st : RICEPrioritization) (name : String)
    (reach impact confidence effort : ℚ) : RICEPrioritization :=
  let rice_score := (reach * impact * (confidence / 100)) / effort
  ⟨st.features ++ [{ name := name, reach := reach, impact := impact,
                     confidence := confidence, effort := effort,
                     rice_score := pyRound2 rice_score }]⟩

/-- `RICEPrioritization.get_prioritized_list`: the feature rows sorted by
`rice_score` in descending order (`sort_values('rice_score', ascending=False)`). -/
def get_prioritized_list (st : RICEPrioritization) : List Feature :=
  st.features.mergeSort (fun a b => decide (b.rice_score ≤ a.rice_score))

/-! ### Facts about the standard normal CDF -/

lemma normCdf_nonneg (x : ℝ) : 0 ≤ normCdf x := ENNReal.toReal_nonneg

lemma normCdf_le_one (x : ℝ) : normCdf x ≤ 1 := by
  have h : (gaussianReal 0 1) (Iic x) ≤ 1 := prob_le_one
  have := ENNReal.toReal_mono ENNReal.one_ne_top h
  simpa [normCdf] using this

lemma normCdf_mono : Monotone normCdf := fun _ _ hab =>
  ENNReal.toReal_mono (measure_ne_top _ _) (measure_mono (Iic_subset_Iic.mpr hab))

lemma gaussianReal_map_neg :
    (gaussianReal 0 1).map (fun x => (-1 : ℝ) * x) = gaussianReal 0 1 := by
  have h := gaussianReal_map_const_mul (μ := (0 : ℝ)) (v := (1 : ℝ≥0)) (-1 : ℝ)
  have h2 : (⟨(-1 : ℝ) ^ 2, sq_nonneg _⟩ : ℝ≥0) * 1 = 1 := by
    ext
    norm_num
  rw [h2] at h
  simpa using h

lemma gaussianReal_Iic_zero : (gaussianReal 0 1) (Iic (0 : ℝ)) = 1 / 2 := by
  have hIci : (gaussianReal 0 1) (Ici (0 : ℝ)) = (gaussianReal 0 1) (Iic (0 : ℝ)) := by
    conv_rhs => rw [← gaussianReal_map_neg]
    rw [Measure.map_apply (by fun_prop) measurableSet_Iic]
    congr 1
    ext x
    simp
  have hsing : (gaussianReal 0 1) ({(0 : ℝ)} : Set ℝ) = 0 :=
    gaussianReal_absolutelyContinuous 0 one_ne_zero Real.volume_singleton
  have hIoi : (gaussianReal 0 1) (Ioi (0 : ℝ)) = (gaussianReal 0 1) (Ici (0 : ℝ)) := by
    refine le_antisymm (measure_mono Ioi_subset_Ici_self) ?_
    have hcover : Ici (0 : ℝ) ⊆ ({(0 : ℝ)} : Set ℝ) ∪ Ioi (0 : ℝ) := by
      intro x hx
      rcases eq_or_lt_of_le (mem_Ici.mp hx) with h | h
      · exact Or.inl (by simp [h.symm])
      · exact Or.inr h
    calc (gaussianReal 0 1) (Ici (0 : ℝ))
        ≤ (gaussianReal 0 1) (({(0 : ℝ)} : Set ℝ) ∪ Ioi (0 : ℝ)) := measure_mono hcover
      _ ≤ (gaussianReal 0 1) ({(0 : ℝ)} : Set ℝ) + (gaussianReal 0 1) (Ioi (0 : ℝ)) :=
          measure_union_le _ _
      _ = (gaussianReal 0 1) (Ioi (0 : ℝ)) := by rw [hsing, zero_add]
  have hsplit : (gaussianReal 0 1) (Iic (0 : ℝ)) + (gaussianReal 0 1) (Ioi (0 : ℝ)) = 1 := by
    have := measure_add_measure_compl (μ := gaussianReal 0 1) (measurableSet_Iic (a := (0 : ℝ)))
    rwa [compl_Iic, measure_univ] at this
  rw [hIoi, hIci] at hsplit
  have hne : (gaussianReal 0 1) (Iic (0 : ℝ)) ≠ ⊤ := measure_ne_top _ _
  have htr := congrArg ENNReal.toReal hsplit
  rw [ENNReal.toReal_add hne hne, ENNReal.one_toReal] at htr
  have hhalf : ((gaussianReal 0 1) (Iic (0 : ℝ))).toReal = 1 / 2 := by linarith
  have hofr := ENNReal.ofReal_toReal hne
  rw [← hofr, hhalf]
  norm_num
  rw [ENNReal.ofReal_div_of_pos (by norm_num)]
  norm_num

lemma normCdf_zero : normCdf 0 = 1 / 2 := by
  rw [normCdf, gaussianReal_Iic_zero]
  simp [ENNReal.toReal_div]

lemma normCdf_half_le (x : ℝ) (hx : 0 ≤ x) : 1 / 2 ≤ normCdf x := by
  have := normCdf_mono hx
  rwa [normCdf_zero] at this

lemma gaussianPDFReal_std (x : ℝ) :
    gaussianPDFReal 0 1 x = (Real.sqrt (2 * Real.pi))⁻¹ * Real.exp (-(x ^ 2) / 2) := by
  simp [gaussianPDFReal]

lemma gaussianPDFReal_std_anti {x y : ℝ} (hx : 0 ≤ x) (hxy : x ≤ y) :
    gaussianPDFReal 0 1 y ≤ gaussianPDFReal 0 1 x := by
  rw [gaussianPDFReal_std, gaussianPDFReal_std]
  have hc : (0 : ℝ) ≤ (Real.sqrt (2 * Real.pi))⁻¹ := by positivity
  refine mul_le_mul_of_nonneg_left ?_ hc
  refine Real.exp_le_exp.mpr ?_
  have : x ^ 2 ≤ y ^ 2 := by nlinarith
  linarith

lemma normCdf_sub_eq_toReal {a b : ℝ} (hab : a ≤ b) :
    normCdf b - normCdf a = ((gaussianReal 0 1) (Ioc a b)).toReal := by
  have hsplit : (gaussianReal 0 1) (Iic a) + (gaussianReal 0 1) (Ioc a b)
      = (gaussianReal 0 1) (Iic b) := by
    rw [← measure_union (Iic_disjoint_Ioc le_rfl) measurableSet_Ioc,
      Iic_union_Ioc_eq_Iic hab]
  have h1 : (gaussianReal 0 1) (Iic a) ≠ ⊤ := measure_ne_top _ _
  have h2 : (gaussianReal 0 1) (Ioc a b) ≠ ⊤ := measure_ne_top _ _
  have := congrArg ENNReal.toReal hsplit
  rw [ENNReal.toReal_add h1 h2] at this
  simp only [normCdf]
  linarith

lemma gaussianReal_Ioc_toReal (a b : ℝ) :
    ((gaussianReal 0 1) (Ioc a b)).toReal = ∫ x in Ioc a b, gaussianPDFReal 0 1 x := by
  rw [gaussianReal_apply_eq_integral 0 one_ne_zero (Ioc a b)]
  refine ENNReal.toReal_ofReal ?_
  exact setIntegral_nonneg measurableSet_Ioc (fun x _ => gaussianPDFReal_nonneg 0 1 x)

lemma setIntegral_gaussianPDFReal_ge {a b : ℝ} (ha : 0 ≤ a) (hab : a ≤ b) :
    (b - a) * gaussianPDFReal 0 1 b ≤ ∫ x in Ioc a b, gaussianPDFReal 0 1 x := by
  have hconst : ∫ _x in Ioc a b, gaussianPDFReal 0 1 b
      = (b - a) * gaussianPDFReal 0 1 b := by
    rw [setIntegral_const, Real.volume_Ioc, ENNReal.toReal_ofReal (by linarith), smul_eq_mul]
  rw [← hconst]
  refine setIntegral_mono_on ?_ ?_ measurableSet_Ioc ?_
  · exact integrableOn_const.mpr (Or.inr (measure_Ioc_lt_top))
  · exact (integrable_gaussianPDFReal 0 1).integrableOn
  · intro x hx
    exact gaussianPDFReal_std_anti (le_trans ha (le_of_lt hx.1)) hx.2

lemma gaussianPDFReal_two_lb : (539 : ℝ) / 10000 < gaussianPDFReal 0 1 2 := by
  rw [gaussianPDFReal_std]
  have hexp1 : Real.exp 1 < 2.7182818286 := Real.exp_one_lt_d9
  have hexp1' : (0 : ℝ) < Real.exp 1 := Real.exp_pos 1
  have hexp2 : Real.exp 2 < 7.38905621 := by
    have h2 : (2 : ℝ) = 1 + 1 := by norm_num
    rw [h2, Real.exp_add]
    nlinarith
  have hexp2' : (0 : ℝ) < Real.exp 2 := Real.exp_pos 2
  have hs : Real.sqrt (2 * Real.pi) < 2.5067 := by
    refine (Real.sqrt_lt' (by norm_num)).mpr ?_
    nlinarith [Real.pi_lt_3141593]
  have hs' : (0 : ℝ) < Real.sqrt (2 * Real.pi) := by
    refine Real.sqrt_pos.mpr ?_
    nlinarith [Real.pi_gt_three]
  have hsi : ((2.5067 : ℝ))⁻¹ ≤ (Real.sqrt (2 * Real.pi))⁻¹ := by
    refine inv_le_inv_of_le hs' hs.le
  have hei : ((7.38905621 : ℝ))⁻¹ ≤ Real.exp (-2) := by
    rw [Real.exp_neg]
    exact inv_le_inv_of_le hexp2' hexp2.le
  have hgoal : (-(2 : ℝ) ^ 2 / 2) = -2 := by norm_num
  rw [hgoal]
  calc (539 : ℝ) / 10000 < (2.5067 : ℝ)⁻¹ * (7.38905621 : ℝ)⁻¹ := by norm_num
    _ ≤ (Real.sqrt (2 * Real.pi))⁻¹ * Real.exp (-2) := by
        refine mul_le_mul hsi hei (by norm_num) (by positivity)

lemma one_sub_normCdf_lb : (301 : ℝ) / 10000 < 1 - normCdf (36 / 25) := by
  have h1 : normCdf 2 - normCdf (36 / 25) = ((gaussianReal 0 1) (Ioc (36 / 25 : ℝ) 2)).toReal :=
    normCdf_sub_eq_toReal (by norm_num)
  have h2 : ((gaussianReal 0 1) (Ioc (36 / 25 : ℝ) 2)).toReal
      = ∫ x in Ioc (36 / 25 : ℝ) 2, gaussianPDFReal 0 1 x := gaussianReal_Ioc_toReal _ _
  have h3 : ((2 : ℝ) - 36 / 25) * gaussianPDFReal 0 1 2
      ≤ ∫ x in Ioc (36 / 25 : ℝ) 2, gaussianPDFReal 0 1 x :=
    setIntegral_gaussianPDFReal_ge (by norm_num) (by norm_num)
  have h4 := gaussianPDFReal_two_lb
  have h5 : normCdf 2 ≤ 1 := normCdf_le_one 2
  nlinarith

/-! ### Unfolding lemmas for the z-test core -/

lemma core_control_rate (c_s c_t t_s t_t : ℕ) (alpha : ℝ) :
    (run_z_test_core c_s c_t t_s t_t alpha).control_rate = conversionRate c_s c_t := rfl

lemma core_treatment_rate (c_s c_t t_s t_t : ℕ) (alpha : ℝ) :
    (run_z_test_core c_s c_t t_s t_t alpha).treatment_rate = conversionRate t_s t_t := rfl

lemma core_z_score (c_s c_t t_s t_t : ℕ) (alpha : ℝ) :
    (run_z_test_core c_s c_t t_s t_t alpha).z_score
      = (conversionRate t_s t_t - conversionRate c_s c_t) / standardError c_s c_t t_s t_t := rfl

lemma core_p_value (c_s c_t t_s t_t : ℕ) (alpha : ℝ) :
    (run_z_test_core c_s c_t t_s t_t alpha).p_value
      = 2 * (1 - normCdf |(run_z_test_core c_s c_t t_s t_t alpha).z_score|) := rfl

lemma core_lift (c_s c_t t_s t_t : ℕ) (alpha : ℝ) :
    (run_z_test_core c_s c_t t_s t_t alpha).lift_percent
      = ((conversionRate t_s t_t - conversionRate c_s c_t) / conversionRate c_s c_t) * 100 := rfl

lemma core_significant (c_s c_t t_s t_t : ℕ) (alpha : ℝ) :
    (run_z_test_core c_s c_t t_s t_t alpha).statistically_significant
      ↔ (run_z_test_core c_s c_t t_s t_t alpha).p_value < alpha := Iff.rfl

lemma counts_ok (c_s c_t t_s t_t : ℕ) (alpha : ℝ) (hc : c_t ≠ 0) (ht : t_t ≠ 0) :
    run_statistical_test_counts c_s c_t t_s t_t alpha
      = Except.ok (run_z_test_core c_s c_t t_s t_t alpha) := by
  simp [run_statistical_test_counts, hc, ht]

/-- C2: for every input with positive totals and pooled proportion strictly
between 0 and 1, the returned z-score is the difference of the group rates
divided by the pooled standard error, the p-value is `2 * (1 - Φ(|z|))` for
the standard normal CDF `Φ`, and the result is flagged significant exactly
when the p-value is below `alpha`. -/
theorem C2_z_test_formulas (c_s c_t t_s t_t : ℕ) (alpha : ℝ)
    (hc : 0 < c_t) (ht : 0 < t_t)
    (hp0 : 0 < pPooled c_s c_t t_s t_t) (hp1 : pPooled c_s c_t t_s t_t < 1) :
    ∃ r : TestResult,
      run_statistical_test_counts c_s c_t t_s t_t alpha = Except.ok r ∧
      pPooled c_s c_t t_s t_t = ((c_s : ℝ) + (t_s : ℝ)) / ((c_t : ℝ) + (t_t : ℝ)) ∧
      r.z_score = ((t_s : ℝ) / (t_t : ℝ) - (c_s : ℝ) / (c_t : ℝ)) /
        Real.sqrt (pPooled c_s c_t t_s t_t * (1 - pPooled c_s c_t t_s t_t) *
          (1 / (c_t : ℝ) + 1 / (t_t : ℝ))) ∧
      r.p_value = 2 * (1 - ((gaussianReal 0 1) (Iic |r.z_score|)).toReal) ∧
      (r.statistically_significant ↔ r.p_value < alpha) := by
  refine ⟨run_z_test_core c_s c_t t_s t_t alpha,
    counts_ok c_s c_t t_s t_t alpha hc.ne' ht.ne', rfl, rfl, rfl, Iff.rfl⟩

/-- Witness for C2 at the spec's known-value input. -/
theorem C2_z_test_formulas_witness :
    ∃ r : TestResult,
      run_statistical_test_counts 100 1000 120 1000 (1 / 20) = Except.ok r ∧
      pPooled 100 1000 120 1000
        = (((100 : ℕ) : ℝ) + ((120 : ℕ) : ℝ)) / (((1000 : ℕ) : ℝ) + ((1000 : ℕ) : ℝ)) ∧
      r.z_score = (((120 : ℕ) : ℝ) / ((1000 : ℕ) : ℝ) - ((100 : ℕ) : ℝ) / ((1000 : ℕ) : ℝ)) /
        Real.sqrt (pPooled 100 1000 120 1000 * (1 - pPooled 100 1000 120 1000) *
          (1 / ((1000 : ℕ) : ℝ) + 1 / ((1000 : ℕ) : ℝ))) ∧
      r.p_value = 2 * (1 - ((gaussianReal 0 1) (Iic |r.z_score|)).toReal) ∧
      (r.statistically_significant ↔ r.p_value < 1 / 20) :=
  C2_z_test_formulas 100 1000 120 1000 (1 / 20) (by norm_num) (by norm_num)
    (by norm_num [pPooled]) (by norm_num [pPooled])

/-! ### The known-value scenario (C1) -/

lemma seArg_known :
    pPooled 100 1000 120 1000 * (1 - pPooled 100 1000 120 1000) *
      (1 / ((1000 : ℕ) : ℝ) + 1 / ((1000 : ℕ) : ℝ)) = 1958 / 10000000 := by
  norm_num [pPooled]

lemma se_known_lb : (139928 : ℝ) / 10000000 < standardError 100 1000 120 1000 := by
  rw [standardError, seArg_known]
  rw [show ((1958 : ℝ) / 10000000) = ((1958 : ℝ) / 10000000)  from rfl]
  refine (Real.lt_sqrt (by norm_num)).mpr ?_
  norm_num

lemma se_known_ub : standardError 100 1000 120 1000 < (139929 : ℝ) / 10000000 := by
  rw [standardError, seArg_known]
  refine (Real.sqrt_lt' (by norm_num)).mpr ?_
  norm_num

lemma se_known_pos : (0 : ℝ) < standardError 100 1000 120 1000 :=
  lt_trans (by norm_num) se_known_lb

lemma rate_diff_known :
    conversionRate 120 1000 - conversionRate 100 1000 = (1 : ℝ) / 50 := by
  norm_num [conversionRate]

lemma z_known_lb : (14292 : ℝ) / 10000 < (run_z_test_core 100 1000 120 1000 (1 / 20)).z_score := by
  rw [core_z_score, rate_diff_known]
  rw [lt_div_iff se_known_pos]
  calc (14292 : ℝ) / 10000 * standardError 100 1000 120 1000
      < 14292 / 10000 * (139929 / 10000000) := by
        refine mul_lt_mul_of_pos_left se_known_ub (by norm_num)
    _ < 1 / 50 := by norm_num

lemma z_known_ub : (run_z_test_core 100 1000 120 1000 (1 / 20)).z_score < (14294 : ℝ) / 10000 := by
  rw [core_z_score, rate_diff_known]
  rw [div_lt_iff se_known_pos]
  calc (1 : ℝ) / 50 < 14294 / 10000 * (139928 / 10000000) := by norm_num
    _ < 14294 / 10000 * standardError 100 1000 120 1000 := by
        refine mul_lt_mul_of_pos_left se_known_lb (by norm_num)

lemma p_known_lb : (3 : ℝ) / 50 < (run_z_test_core 100 1000 120 1000 (1 / 20)).p_value := by
  rw [core_p_value]
  have hz0 : (0 : ℝ) < (run_z_test_core 100 1000 120 1000 (1 / 20)).z_score :=
    lt_trans (by norm_num) z_known_lb
  rw [abs_of_pos hz0]
  have hmono : normCdf (run_z_test_core 100 1000 120 1000 (1 / 20)).z_score ≤ normCdf (36 / 25) :=
    normCdf_mono (le_trans z_known_ub.le (by norm_num))
  have htail := one_sub_normCdf_lb
  linarith

lemma known_not_significant :
    ¬ (run_z_test_core 100 1000 120 1000 (1 / 20)).statistically_significant := by
  rw [core_significant]
  have := p_known_lb
  intro hcon
  norm_num at hcon this
  linarith

/-- C1 (counterexample to the claimed values): at
`control_successes = 100, control_total = 1000, treatment_successes = 120,
treatment_total = 1000, alpha = 0.05`, the z-score returned by the code is
more than 0.5 away from the claimed 2.024, and the result is *not*
statistically significant. -/
theorem C1_counterexample :
    (1 : ℝ) / 2 < |(run_z_test_core 100 1000 120 1000 (1 / 20)).z_score - 2.024| ∧
    ¬ (run_z_test_core 100 1000 120 1000 (1 / 20)).statistically_significant := by
  constructor
  · have h := z_known_ub
    rw [abs_sub_comm, abs_of_pos (by norm_num at h ⊢; linarith)]
    norm_num at h ⊢
    linarith
  · exact known_not_significant

/-- C1 amended: at the known-value input the code returns
`control_rate = 0.10`, `treatment_rate = 0.12`, pooled proportion `0.11`
and `lift_percent = 20.0` as claimed, but the standard error is
≈ 0.0139928 (not 0.00988), the z-score is ≈ 1.4293 (not 2.024), the
p-value exceeds 0.06 (not ≈ 0.043), and the result is *not* significant at
`alpha = 0.05`. -/
theorem C1_amended_known_values :
    run_statistical_test_counts 100 1000 120 1000 (1 / 20)
        = Except.ok (run_z_test_core 100 1000 120 1000 (1 / 20)) ∧
    (run_z_test_core 100 1000 120 1000 (1 / 20)).control_rate = 1 / 10 ∧
    (run_z_test_core 100 1000 120 1000 (1 / 20)).treatment_rate = 3 / 25 ∧
    pPooled 100 1000 120 1000 = 11 / 100 ∧
    (run_z_test_core 100 1000 120 1000 (1 / 20)).lift_percent = 20 ∧
    (139928 : ℝ) / 10000000 < standardError 100 1000 120 1000 ∧
    standardError 100 1000 120 1000 < (139929 : ℝ) / 10000000 ∧
    (14292 : ℝ) / 10000 < (run_z_test_core 100 1000 120 1000 (1 / 20)).z_score ∧
    (run_z_test_core 100 1000 120 1000 (1 / 20)).z_score < (14294 : ℝ) / 10000 ∧
    (3 : ℝ) / 50 < (run_z_test_core 100 1000 120 1000 (1 / 20)).p_value ∧
    ¬ (run_z_test_core 100 1000 120 1000 (1 / 20)).statistically_significant := by
  refine ⟨counts_ok 100 1000 120 1000 (1 / 20) (by norm_num) (by norm_num),
    by norm_num [core_control_rate, conversionRate],
    by norm_num [core_treatment_rate, conversionRate],
    by norm_num [pPooled],
    by norm_num [core_lift, conversionRate],
    se_known_lb, se_known_ub, z_known_lb, z_known_ub, p_known_lb,
    known_not_significant⟩

/-! ### Degenerate inputs: zero or full pooled proportion (C3), zero totals (C4) -/

lemma conversionRate_zero_conv (t : ℕ) : conversionRate 0 t = 0 := by
  simp [conversionRate]

lemma conversionRate_full (t : ℕ) (ht : t ≠ 0) : conversionRate t t = 1 := by
  rw [conversionRate]
  exact div_self (Nat.cast_ne_zero.mpr ht)

lemma pPooled_zero_conv (c_t t_t : ℕ) : pPooled 0 c_t 0 t_t = 0 := by
  simp [pPooled]

lemma pPooled_full (c_t t_t : ℕ) (hc : c_t ≠ 0) : pPooled c_t c_t t_t t_t = 1 := by
  rw [pPooled]
  refine div_self ?_
  have h1 : (0 : ℝ) < (c_t : ℝ) := Nat.cast_pos.mpr (Nat.pos_of_ne_zero hc)
  have h2 : (0 : ℝ) ≤ (t_t : ℝ) := Nat.cast_nonneg t_t
  linarith

lemma standardError_zero_conv (c_t t_t : ℕ) : standardError 0 c_t 0 t_t = 0 := by
  rw [standardError, pPooled_zero_conv]
  simp

lemma standardError_full (c_t t_t : ℕ) (hc : c_t ≠ 0) : standardError c_t c_t t_t t_t = 0 := by
  rw [standardError, pPooled_full c_t t_t hc]
  simp

lemma core_zero_conv_z (c_t t_t : ℕ) (alpha : ℝ) :
    (run_z_test_core 0 c_t 0 t_t alpha).z_score = 0 := by
  rw [core_z_score, conversionRate_zero_conv, conversionRate_zero_conv]
  simp

lemma core_zero_conv_p (c_t t_t : ℕ) (alpha : ℝ) :
    (run_z_test_core 0 c_t 0 t_t alpha).p_value = 1 := by
  rw [core_p_value, core_zero_conv_z]
  rw [abs_zero, normCdf_zero]
  norm_num

lemma core_zero_conv_lift (c_t t_t : ℕ) (alpha : ℝ) :
    (run_z_test_core 0 c_t 0 t_t alpha).lift_percent = 0 := by
  rw [core_lift, conversionRate_zero_conv, conversionRate_zero_conv]
  simp

lemma core_full_z (c_t t_t : ℕ) (alpha : ℝ) (hc : c_t ≠ 0) (ht : t_t ≠ 0) :
    (run_z_test_core c_t c_t t_t t_t alpha).z_score = 0 := by
  rw [core_z_score, conversionRate_full c_t hc, conversionRate_full t_t ht]
  simp

/-- C3 (counterexample): with no conversions in either group
(`control_successes = treatment_successes = 0`, totals 1000), the pooled
standard error is zero, yet the code does not fail with any
division-by-zero error: it returns a populated result whose `z_score` is
the junk value produced by dividing zero by zero (NaN in the float
implementation, 0 in this real-number model) and whose p-value is 1. -/
theorem C3_counterexample :
    standardError 0 1000 0 1000 = 0 ∧
    run_statistical_test_counts 0 1000 0 1000 (1 / 20)
      = Except.ok (run_z_test_core 0 1000 0 1000 (1 / 20)) ∧
    (run_z_test_core 0 1000 0 1000 (1 / 20)).z_score = 0 ∧
    (run_z_test_core 0 1000 0 1000 (1 / 20)).p_value = 1 ∧
    ¬ (run_z_test_core 0 1000 0 1000 (1 / 20)).statistically_significant := by
  refine ⟨standardError_zero_conv 1000 1000,
    counts_ok 0 1000 0 1000 (1 / 20) (by norm_num) (by norm_num),
    core_zero_conv_z 1000 1000 (1 / 20),
    core_zero_conv_p 1000 1000 (1 / 20), ?_⟩
  rw [core_significant, core_zero_conv_p 1000 1000 (1 / 20)]
  norm_num

/-- C3 amended: the code performs no division-by-zero handling.  For any
positive totals, when the pooled proportion is 0 (no conversions at all) or
1 (every session converted) the pooled standard error is zero, yet
`run_statistical_test` still returns a populated `TestResult` instead of
failing: its `z_score` (and, for the zero-conversion case, its
`lift_percent`, whose denominator `control_rate` is also zero) is the junk
value of a division by zero — NaN in the float implementation, 0 in this
real-number model. -/
theorem C3_amended (c_t t_t : ℕ) (alpha : ℝ) (hc : c_t ≠ 0) (ht : t_t ≠ 0) :
    standardError 0 c_t 0 t_t = 0 ∧
    run_statistical_test_counts 0 c_t 0 t_t alpha
      = Except.ok (run_z_test_core 0 c_t 0 t_t alpha) ∧
    (run_z_test_core 0 c_t 0 t_t alpha).control_rate = 0 ∧
    (run_z_test_core 0 c_t 0 t_t alpha).z_score = 0 ∧
    (run_z_test_core 0 c_t 0 t_t alpha).lift_percent = 0 ∧
    standardError c_t c_t t_t t_t = 0 ∧
    run_statistical_test_counts c_t c_t t_t t_t alpha
      = Except.ok (run_z_test_core c_t c_t t_t t_t alpha) ∧
    (run_z_test_core c_t c_t t_t t_t alpha).z_score = 0 :=
  ⟨standardError_zero_conv c_t t_t,
   counts_ok 0 c_t 0 t_t alpha hc ht,
   by rw [core_control_rate, conversionRate_zero_conv],
   core_zero_conv_z c_t t_t alpha,
   core_zero_conv_lift c_t t_t alpha,
   standardError_full c_t t_t hc,
   counts_ok c_t c_t t_t t_t alpha hc ht,
   core_full_z c_t t_t alpha hc ht⟩

/-- Witness for C3 amended at totals 1000 and 500. -/
theorem C3_amended_witness :
    standardError 0 1000 0 500 = 0 ∧
    run_statistical_test_counts 0 1000 0 500 (1 / 20)
      = Except.ok (run_z_test_core 0 1000 0 500 (1 / 20)) ∧
    (run_z_test_core 0 1000 0 500 (1 / 20)).control_rate = 0 ∧
    (run_z_test_core 0 1000 0 500 (1 / 20)).z_score = 0 ∧
    (run_z_test_core 0 1000 0 500 (1 / 20)).lift_percent = 0 ∧
    standardError 1000 1000 500 500 = 0 ∧
    run_statistical_test_counts 1000 1000 500 500 (1 / 20)
      = Except.ok (run_z_test_core 1000 1000 500 500 (1 / 20)) ∧
    (run_z_test_core 1000 1000 500 500 (1 / 20)).z_score = 0 :=
  C3_amended 1000 500 (1 / 20) (by norm_num) (by norm_num)

/-- C4 (counterexample): with `control_successes = 1100 >
control_total = 1000` the code does not fail with `InvalidInput` (or at
all): it returns a populated result whose control rate is 1.1. -/
theorem C4_counterexample :
    run_statistical_test_counts 1100 1000 120 1000 (1 / 20)
      = Except.ok (run_z_test_core 1100 1000 120 1000 (1 / 20)) ∧
    (run_z_test_core 1100 1000 120 1000 (1 / 20)).control_rate = 11 / 10 := by
  refine ⟨counts_ok 1100 1000 120 1000 (1 / 20) (by norm_num) (by norm_num), ?_⟩
  rw [core_control_rate]
  norm_num [conversionRate]

/-- C4 amended: the only input validation the code performs is implicit:
evaluating `1/control_total + 1/treatment_total` raises Python's generic
`ZeroDivisionError` exactly when a group total is zero (after the group
rates have already been computed as NaN by silent NumPy division) — there
is no dedicated `InsufficientData` error.  When `successes > total` the
code performs no check whatsoever and returns a populated result. -/
theorem C4_amended (c_s c_t t_s t_t : ℕ) (alpha : ℝ) :
    (run_statistical_test_counts c_s c_t t_s t_t alpha
        = Except.error PyError.zeroDivisionError ↔ (c_t = 0 ∨ t_t = 0)) ∧
    (c_t ≠ 0 → t_t ≠ 0 → run_statistical_test_counts c_s c_t t_s t_t alpha
        = Except.ok (run_z_test_core c_s c_t t_s t_t alpha)) := by
  constructor
  · by_cases h : c_t = 0 ∨ t_t = 0 <;> simp [run_statistical_test_counts, h]
  · intro hc ht
    exact counts_ok c_s c_t t_s t_t alpha hc ht

/-! ### Symmetry under swapping the groups (C5) -/

lemma pPooled_swap (c_s c_t t_s t_t : ℕ) :
    pPooled t_s t_t c_s c_t = pPooled c_s c_t t_s t_t := by
  rw [pPooled, pPooled, add_comm ((t_s : ℕ) : ℝ), add_comm ((t_t : ℕ) : ℝ)]

lemma standardError_swap (c_s c_t t_s t_t : ℕ) :
    standardError t_s t_t c_s c_t = standardError c_s c_t t_s t_t := by
  rw [standardError, standardError, pPooled_swap, add_comm (1 / ((t_t : ℕ) : ℝ))]

lemma core_z_swap (c_s c_t t_s t_t : ℕ) (alpha : ℝ) :
    (run_z_test_core t_s t_t c_s c_t alpha).z_score
      = - (run_z_test_core c_s c_t t_s t_t alpha).z_score := by
  rw [core_z_score, core_z_score, standardError_swap]
  ring

/-- C5: for every valid input (positive totals, pooled proportion strictly
between 0 and 1), swapping the control and treatment groups negates the
z-score and leaves the p-value unchanged. -/
theorem C5_swap_symmetry (c_s c_t t_s t_t : ℕ) (alpha : ℝ)
    (hc : 0 < c_t) (ht : 0 < t_t)
    (hp0 : 0 < pPooled c_s c_t t_s t_t) (hp1 : pPooled c_s c_t t_s t_t < 1) :
    run_statistical_test_counts c_s c_t t_s t_t alpha
      = Except.ok (run_z_test_core c_s c_t t_s t_t alpha) ∧
    run_statistical_test_counts t_s t_t c_s c_t alpha
      = Except.ok (run_z_test_core t_s t_t c_s c_t alpha) ∧
    (run_z_test_core t_s t_t c_s c_t alpha).z_score
      = - (run_z_test_core c_s c_t t_s t_t alpha).z_score ∧
    (run_z_test_core t_s t_t c_s c_t alpha).p_value
      = (run_z_test_core c_s c_t t_s t_t alpha).p_value := by
  refine ⟨counts_ok c_s c_t t_s t_t alpha hc.ne' ht.ne',
    counts_ok t_s t_t c_s c_t alpha ht.ne' hc.ne',
    core_z_swap c_s c_t t_s t_t alpha, ?_⟩
  rw [core_p_value, core_p_value, core_z_swap, abs_neg]

/-- Witness for C5 at the known-value input. -/
theorem C5_swap_symmetry_witness :
    run_statistical_test_counts 100 1000 120 1000 (1 / 20)
      = Except.ok (run_z_test_core 100 1000 120 1000 (1 / 20)) ∧
    run_statistical_test_counts 120 1000 100 1000 (1 / 20)
      = Except.ok (run_z_test_core 120 1000 100 1000 (1 / 20)) ∧
    (run_z_test_core 120 1000 100 1000 (1 / 20)).z_score
      = - (run_z_test_core 100 1000 120 1000 (1 / 20)).z_score ∧
    (run_z_test_core 120 1000 100 1000 (1 / 20)).p_value
      = (run_z_test_core 100 1000 120 1000 (1 / 20)).p_value :=
  C5_swap_symmetry 100 1000 120 1000 (1 / 20) (by norm_num) (by norm_num)
    (by norm_num [pPooled]) (by norm_num [pPooled])

/-! ### Ranges of the returned fields (C7) -/

/-- C7: for every valid input (successes at most the total, positive
totals, pooled proportion strictly between 0 and 1) the returned rates and
the returned p-value lie in the interval [0, 1]. -/
theorem C7_field_ranges (c_s c_t t_s t_t : ℕ) (alpha : ℝ)
    (hcs : c_s ≤ c_t) (hts : t_s ≤ t_t) (hc : 0 < c_t) (ht : 0 < t_t)
    (hp0 : 0 < pPooled c_s c_t t_s t_t) (hp1 : pPooled c_s c_t t_s t_t < 1) :
    run_statistical_test_counts c_s c_t t_s t_t alpha
      = Except.ok (run_z_test_core c_s c_t t_s t_t alpha) ∧
    0 ≤ (run_z_test_core c_s c_t t_s t_t alpha).control_rate ∧
    (run_z_test_core c_s c_t t_s t_t alpha).control_rate ≤ 1 ∧
    0 ≤ (run_z_test_core c_s c_t t_s t_t alpha).treatment_rate ∧
    (run_z_test_core c_s c_t t_s t_t alpha).treatment_rate ≤ 1 ∧
    0 ≤ (run_z_test_core c_s c_t t_s t_t alpha).p_value ∧
    (run_z_test_core c_s c_t t_s t_t alpha).p_value ≤ 1 := by
  have hrate : ∀ s t : ℕ, s ≤ t → 0 < t → 0 ≤ conversionRate s t ∧ conversionRate s t ≤ 1 := by
    intro s t hst htpos
    constructor
    · exact div_nonneg (Nat.cast_nonneg s) (Nat.cast_nonneg t)
    · rw [conversionRate, div_le_one (Nat.cast_pos.mpr htpos)]
      exact_mod_cast hst
  have habs : (0 : ℝ) ≤ |(run_z_test_core c_s c_t t_s t_t alpha).z_score| := abs_nonneg _
  have hhalf := normCdf_half_le _ habs
  have hone := normCdf_le_one |(run_z_test_core c_s c_t t_s t_t alpha).z_score|
  refine ⟨counts_ok c_s c_t t_s t_t alpha hc.ne' ht.ne',
    (hrate c_s c_t hcs hc).1, (hrate c_s c_t hcs hc).2,
    (hrate t_s t_t hts ht).1, (hrate t_s t_t hts ht).2, ?_, ?_⟩
  · rw [core_p_value]
    linarith
  · rw [core_p_value]
    linarith

/-- Witness for C7 at the known-value input. -/
theorem C7_field_ranges_witness :
    run_statistical_test_counts 100 1000 120 1000 (1 / 20)
      = Except.ok (run_z_test_core 100 1000 120 1000 (1 / 20)) ∧
    0 ≤ (run_z_test_core 100 1000 120 1000 (1 / 20)).control_rate ∧
    (run_z_test_core 100 1000 120 1000 (1 / 20)).control_rate ≤ 1 ∧
    0 ≤ (run_z_test_core 100 1000 120 1000 (1 / 20)).treatment_rate ∧
    (run_z_test_core 100 1000 120 1000 (1 / 20)).treatment_rate ≤ 1 ∧
    0 ≤ (run_z_test_core 100 1000 120 1000 (1 / 20)).p_value ∧
    (run_z_test_core 100 1000 120 1000 (1 / 20)).p_value ≤ 1 :=
  C7_field_ranges 100 1000 120 1000 (1 / 20) (by norm_num) (by norm_num)
    (by norm_num) (by norm_num) (by norm_num [pPooled]) (by norm_num [pPooled])

/-! ### Monotonicity in the treatment successes (C6) -/

lemma key_quad {P ε d δ : ℝ} (hP0 : 0 < P) (hPε1 : P + ε < 1) (hd : 0 ≤ d)
    (hε : 0 ≤ ε) (hδ : 0 < δ) (hδε : d * ε ≤ δ * P) :
    d ^ 2 * ((P + ε) * (1 - (P + ε))) < (d + δ) ^ 2 * (P * (1 - P)) := by
  have h1P : 0 < 1 - P := by linarith
  have t1 : 0 ≤ d * (δ * P - d * ε) * (1 - P) :=
    mul_nonneg (mul_nonneg hd (by linarith)) h1P.le
  have t2 : 0 ≤ d ^ 2 * ε := mul_nonneg (sq_nonneg d) hε
  have t3 : 0 < δ ^ 2 * (P * (1 - P)) := by positivity
  have t4 : 0 ≤ d ^ 2 * ε ^ 2 := by positivity
  nlinarith [t1, t2, t3, t4]

lemma sq_compare_pos {d d' V V' : ℝ} (hd : 0 < d) (hd'0 : 0 ≤ d')
    (hV : 0 < V) (hV' : 0 < V')
    (hKI : d ^ 2 * V' < d' ^ 2 * V) :
    d / Real.sqrt V < d' / Real.sqrt V' := by
  have hse : 0 < Real.sqrt V := Real.sqrt_pos.mpr hV
  have hse' : 0 < Real.sqrt V' := Real.sqrt_pos.mpr hV'
  have hsq : Real.sqrt V ^ 2 = V := Real.sq_sqrt hV.le
  have hsq' : Real.sqrt V' ^ 2 = V' := Real.sq_sqrt hV'.le
  have hd' : 0 < d' := by
    rcases eq_or_lt_of_le hd'0 with h | h
    · exfalso
      rw [← h] at hKI
      have hpos : 0 < d ^ 2 * V' := mul_pos (pow_pos hd 2) hV'
      nlinarith
    · exact h
  rw [div_lt_div_iff hse hse']
  refine lt_of_pow_lt_pow_left 2 (mul_nonneg hd'.le hse.le) ?_
  rw [mul_pow, mul_pow, hsq, hsq']
  exact hKI

lemma div_sqrt_strict_mono {d d' P P' K : ℝ} (hK : 0 < K)
    (hP0 : 0 < P) (hP1 : P < 1) (hP0' : 0 < P') (hP1' : P' < 1)
    (hdd' : d < d') (hPP' : P < P')
    (haux1 : d * (P' - P) ≤ (d' - d) * P)
    (haux2 : (-d') * (P' - P) ≤ (d' - d) * (1 - P')) :
    d / Real.sqrt (P * (1 - P) * K) < d' / Real.sqrt (P' * (1 - P') * K) := by
  have hV : 0 < P * (1 - P) * K := mul_pos (mul_pos hP0 (by linarith)) hK
  have hV' : 0 < P' * (1 - P') * K := mul_pos (mul_pos hP0' (by linarith)) hK
  rcases lt_trichotomy d' 0 with hd'neg | hd'zero | hd'pos
  · -- both strictly negative: compare the negated quotients via squared magnitudes
    have hKI := key_quad (P := 1 - P') (ε := P' - P) (d := -d') (δ := d' - d)
      (by linarith) (by linarith) (by linarith) (by linarith) (by linarith) haux2
    have e4 : (1 - P' + (P' - P)) = 1 - P := by ring
    have e5 : (-d' + (d' - d)) = -d := by ring
    rw [e4, e5] at hKI
    have hKI' : (-d') ^ 2 * (P * (1 - P) * K) < (-d) ^ 2 * (P' * (1 - P') * K) := by
      have h1 : (-d') ^ 2 * ((1 - P) * (1 - (1 - P))) * K
          < (-d) ^ 2 * ((1 - P') * (1 - (1 - P'))) * K :=
        mul_lt_mul_of_pos_right hKI hK
      calc (-d') ^ 2 * (P * (1 - P) * K)
          = (-d') ^ 2 * ((1 - P) * (1 - (1 - P))) * K := by ring
        _ < (-d) ^ 2 * ((1 - P') * (1 - (1 - P'))) * K := h1
        _ = (-d) ^ 2 * (P' * (1 - P') * K) := by ring
    have hd'neg' : 0 < -d' := by linarith
    have h := sq_compare_pos hd'neg' (by linarith : (0 : ℝ) ≤ -d) hV' hV hKI'
    rw [neg_div, neg_div, neg_lt_neg_iff] at h
    exact h
  · -- the larger difference is exactly zero, the smaller strictly negative
    have hse : 0 < Real.sqrt (P * (1 - P) * K) := Real.sqrt_pos.mpr hV
    have hdneg : d < 0 := by linarith
    calc d / Real.sqrt (P * (1 - P) * K) < 0 := div_neg_of_neg_of_pos hdneg hse
      _ = d' / Real.sqrt (P' * (1 - P') * K) := by rw [hd'zero, zero_div]
  · rcases le_or_lt d 0 with hdnp | hdpos
    · have hse : 0 < Real.sqrt (P * (1 - P) * K) := Real.sqrt_pos.mpr hV
      have hse' : 0 < Real.sqrt (P' * (1 - P') * K) := Real.sqrt_pos.mpr hV'
      calc d / Real.sqrt (P * (1 - P) * K) ≤ 0 :=
            div_nonpos_iff.mpr (Or.inr ⟨hdnp, hse.le⟩)
        _ < d' / Real.sqrt (P' * (1 - P') * K) := div_pos hd'pos hse'
    · have hKI := key_quad (P := P) (ε := P' - P) (d := d) (δ := d' - d)
        hP0 (by linarith) hdpos.le (by linarith) (by linarith) haux1
      have e4 : (P + (P' - P)) = P' := by ring
      have e5 : (d + (d' - d)) = d' := by ring
      rw [e4, e5] at hKI
      have hKI' : d ^ 2 * (P' * (1 - P') * K) < d' ^ 2 * (P * (1 - P) * K) := by
        have h1 : d ^ 2 * (P' * (1 - P')) * K < d' ^ 2 * (P * (1 - P)) * K :=
          mul_lt_mul_of_pos_right hKI hK
        calc d ^ 2 * (P' * (1 - P') * K) = d ^ 2 * (P' * (1 - P')) * K := by ring
          _ < d' ^ 2 * (P * (1 - P)) * K := h1
          _ = d' ^ 2 * (P * (1 - P) * K) := by ring
      exact sq_compare_pos hdpos (by linarith : (0 : ℝ) ≤ d') hV hV' hKI'

lemma aux_ineq1 {a S S' w : ℝ} (ha0 : 0 ≤ a) (hw : 0 ≤ w) (hSS : S ≤ S') :
    (S - w) * (S' - S) ≤ (S' - S) * (a + S) := by
  nlinarith [mul_nonneg (sub_nonneg.mpr hSS) hw, mul_nonneg (sub_nonneg.mpr hSS) ha0]

lemma aux_ineq2 {b S S' w : ℝ} (hb : 0 ≤ b - w) (hSS : S ≤ S') :
    -(S' - w) * (S' - S) ≤ (S' - S) * (b - S') := by
  nlinarith [mul_nonneg (sub_nonneg.mpr hSS) hb]

lemma z_mono_abstract (m n a S S' : ℝ) (hm : 0 < m) (hn : 0 < n)
    (ha0 : 0 ≤ a) (ham : a ≤ m) (hSS : S < S')
    (hP0 : 0 < (a + S) / (m + n)) (hP1 : (a + S) / (m + n) < 1)
    (hP0' : 0 < (a + S') / (m + n)) (hP1' : (a + S') / (m + n) < 1) :
    (S / n - a / m) /
        Real.sqrt ((a + S) / (m + n) * (1 - (a + S) / (m + n)) * (1 / m + 1 / n))
      < (S' / n - a / m) /
        Real.sqrt ((a + S') / (m + n) * (1 - (a + S') / (m + n)) * (1 / m + 1 / n)) := by
  have hmn : (0 : ℝ) < m + n := by linarith
  have hK : (0 : ℝ) < 1 / m + 1 / n := by positivity
  have hPP' : (a + S) / (m + n) < (a + S') / (m + n) :=
    (div_lt_div_iff_of_pos_right hmn).mpr (by linarith)
  have hdd' : S / n - a / m < S' / n - a / m := by
    have : S / n < S' / n := (div_lt_div_iff_of_pos_right hn).mpr hSS
    linarith
  have hnam : 0 ≤ n * a / m := by positivity
  have hnam' : n * a / m ≤ n := by
    rw [div_le_iff hm]
    nlinarith
  have hεd : (a + S') / (m + n) - (a + S) / (m + n) = (S' - S) / (m + n) := by ring
  have hδd : (S' / n - a / m) - (S / n - a / m) = (S' - S) / n := by ring
  have hPmn : (a + S) / (m + n) * (m + n) = a + S := by field_simp
  have hP'mn : (a + S') / (m + n) * (m + n) = a + S' := by field_simp
  have hdn : (S / n - a / m) * n = S - n * a / m := by
    field_simp
    ring
  have hd'n : (S' / n - a / m) * n = S' - n * a / m := by
    field_simp
    ring
  have haux1 : (S / n - a / m) * ((a + S') / (m + n) - (a + S) / (m + n))
      ≤ ((S' / n - a / m) - (S / n - a / m)) * ((a + S) / (m + n)) := by
    rw [hεd, hδd, div_mul_eq_mul_div, ← mul_div_assoc, div_le_div_iff hmn hn]
    have e1 : (S / n - a / m) * (S' - S) * n = ((S / n - a / m) * n) * (S' - S) := by ring
    have e2 : (S' - S) * ((a + S) / (m + n)) * (m + n)
        = (S' - S) * ((a + S) / (m + n) * (m + n)) := by ring
    rw [e1, e2, hPmn, hdn]
    exact aux_ineq1 ha0 hnam hSS.le
  have haux2 : (-(S' / n - a / m)) * ((a + S') / (m + n) - (a + S) / (m + n))
      ≤ ((S' / n - a / m) - (S / n - a / m)) * (1 - (a + S') / (m + n)) := by
    rw [hεd, hδd, div_mul_eq_mul_div, ← mul_div_assoc, div_le_div_iff hmn hn]
    have e1 : -(S' / n - a / m) * (S' - S) * n = -((S' / n - a / m) * n) * (S' - S) := by
      ring
    have e2 : (S' - S) * (1 - (a + S') / (m + n)) * (m + n)
        = (S' - S) * ((m + n) - (a + S') / (m + n) * (m + n)) := by ring
    rw [e1, e2, hP'mn, hd'n]
    have e3 : (m + n) - (a + S') = (m + n - a) - S' := by ring
    rw [e3]
    refine aux_ineq2 ?_ hSS.le
    linarith
  exact div_sqrt_strict_mono hK hP0 hP1 hP0' hP1' hdd' hPP' haux1 haux2

/-- C6: holding `control_successes`, `control_total` and `treatment_total`
fixed, for every pair of valid inputs (positive totals, successes within
totals, positive control successes so that the lift denominator is not
zero, pooled proportion strictly inside (0,1) for both) differing only in
`treatment_successes`, the larger `treatment_successes` yields a strictly
larger treatment rate, a strictly larger z-score, a strictly larger lift,
and — whenever the smaller input's z-score is positive — a p-value that is
not larger. -/
theorem C6_monotonicity (c_s c_t t_t s s' : ℕ) (alpha : ℝ)
    (hc : 0 < c_t) (ht : 0 < t_t) (hcs0 : 0 < c_s) (hcs : c_s ≤ c_t)
    (hs' : s' ≤ t_t) (hss : s < s')
    (hp0 : 0 < pPooled c_s c_t s t_t) (hp1 : pPooled c_s c_t s t_t < 1)
    (hp0' : 0 < pPooled c_s c_t s' t_t) (hp1' : pPooled c_s c_t s' t_t < 1) :
    (run_z_test_core c_s c_t s t_t alpha).treatment_rate
        < (run_z_test_core c_s c_t s' t_t alpha).treatment_rate ∧
    (run_z_test_core c_s c_t s t_t alpha).z_score
        < (run_z_test_core c_s c_t s' t_t alpha).z_score ∧
    (run_z_test_core c_s c_t s t_t alpha).lift_percent
        < (run_z_test_core c_s c_t s' t_t alpha).lift_percent ∧
    (0 < (run_z_test_core c_s c_t s t_t alpha).z_score →
      (run_z_test_core c_s c_t s' t_t alpha).p_value
        ≤ (run_z_test_core c_s c_t s t_t alpha).p_value) := by
  have hm : (0 : ℝ) < (c_t : ℝ) := Nat.cast_pos.mpr hc
  have hn : (0 : ℝ) < (t_t : ℝ) := Nat.cast_pos.mpr ht
  have hrate : conversionRate s t_t < conversionRate s' t_t := by
    rw [conversionRate, conversionRate]
    exact (div_lt_div_iff_of_pos_right hn).mpr (by exact_mod_cast hss)
  simp only [pPooled] at hp0 hp1 hp0' hp1'
  have hz : (run_z_test_core c_s c_t s t_t alpha).z_score
      < (run_z_test_core c_s c_t s' t_t alpha).z_score := by
    rw [core_z_score, core_z_score]
    simp only [conversionRate, standardError, pPooled]
    exact z_mono_abstract (c_t : ℝ) (t_t : ℝ) (c_s : ℝ) (s : ℝ) (s' : ℝ) hm hn
      (Nat.cast_nonneg c_s) (by exact_mod_cast hcs) (by exact_mod_cast hss)
      hp0 hp1 hp0' hp1'
  refine ⟨hrate, hz, ?_, ?_⟩
  · rw [core_lift, core_lift]
    have hpc : 0 < conversionRate c_s c_t := by
      rw [conversionRate]
      exact div_pos (by exact_mod_cast hcs0) hm
    have hstep : (conversionRate s t_t - conversionRate c_s c_t) / conversionRate c_s c_t
        < (conversionRate s' t_t - conversionRate c_s c_t) / conversionRate c_s c_t :=
      (div_lt_div_iff_of_pos_right hpc).mpr (by linarith)
    exact mul_lt_mul_of_pos_right hstep (by norm_num)
  · intro hz0
    rw [core_p_value, core_p_value]
    have hz0' : (0 : ℝ) < (run_z_test_core c_s c_t s' t_t alpha).z_score := lt_trans hz0 hz
    rw [abs_of_pos hz0, abs_of_pos hz0']
    have := normCdf_mono hz.le
    linarith

/-- Witness for C6: totals 1000 for both groups, 100 control successes,
treatment successes 120 versus 130. -/
theorem C6_monotonicity_witness :
    (run_z_test_core 100 1000 120 1000 (1 / 20)).treatment_rate
        < (run_z_test_core 100 1000 130 1000 (1 / 20)).treatment_rate ∧
    (run_z_test_core 100 1000 120 1000 (1 / 20)).z_score
        < (run_z_test_core 100 1000 130 1000 (1 / 20)).z_score ∧
    (run_z_test_core 100 1000 120 1000 (1 / 20)).lift_percent
        < (run_z_test_core 100 1000 130 1000 (1 / 20)).lift_percent ∧
    (0 < (run_z_test_core 100 1000 120 1000 (1 / 20)).z_score →
      (run_z_test_core 100 1000 130 1000 (1 / 20)).p_value
        ≤ (run_z_test_core 100 1000 120 1000 (1 / 20)).p_value) :=
  C6_monotonicity 100 1000 1000 120 130 (1 / 20) (by norm_num) (by norm_num)
    (by norm_num) (by norm_num) (by norm_num) (by norm_num)
    (by norm_num [pPooled]) (by norm_num [pPooled])
    (by norm_num [pPooled]) (by norm_num [pPooled])

/-! ### Purity and determinism of the method (C8) -/

/-- C8: the method is a pure function of the four aggregated counts — two
dataframes with the same counts give the same result, the object (its
state, the dataframe) is unchanged by the call, and calling twice in
sequence yields identical results. -/
theorem C8_pure_deterministic (fw fw2 : ABTestFramework) (alpha : ℝ)
    (hcounts : observedCounts fw = observedCounts fw2) :
    run_statistical_test fw alpha = run_statistical_test fw2 alpha ∧
    (run_statistical_test_method fw alpha).2 = fw ∧
    (run_statistical_test_method fw alpha).1
      = (run_statistical_test_method ((run_statistical_test_method fw alpha).2) alpha).1 := by
  refine ⟨?_, rfl, rfl⟩
  rw [run_statistical_test, run_statistical_test, hcounts]

/-- Witness for C8: two one-row dataframes with the same counts. -/
theorem C8_pure_deterministic_witness :
    run_statistical_test ⟨[⟨1, 1, "control"⟩]⟩ (1 / 20)
      = run_statistical_test ⟨[⟨7, 1, "control"⟩]⟩ (1 / 20) ∧
    (run_statistical_test_method ⟨[⟨1, 1, "control"⟩]⟩ (1 / 20)).2 = ⟨[⟨1, 1, "control"⟩]⟩ ∧
    (run_statistical_test_method ⟨[⟨1, 1, "control"⟩]⟩ (1 / 20)).1
      = (run_statistical_test_method
          ((run_statistical_test_method ⟨[⟨1, 1, "control"⟩]⟩ (1 / 20)).2) (1 / 20)).1 :=
  C8_pure_deterministic ⟨[⟨1, 1, "control"⟩]⟩ ⟨[⟨7, 1, "control"⟩]⟩ (1 / 20) rfl

/-! ### RICE score as stored by `add_feature` (C9) -/

lemma pyRound2_close (x : ℚ) : |pyRound2 x - x| ≤ 1 / 200 := by
  have hf0 : (0 : ℚ) ≤ 100 * x - (⌊100 * x⌋ : ℚ) := sub_nonneg.mpr (Int.floor_le (100 * x))
  have hf1 : 100 * x - (⌊100 * x⌋ : ℚ) < 1 := by
    have := Int.lt_floor_add_one (100 * x)
    linarith
  rw [pyRound2]
  split_ifs with h1 h2 h3 <;> rw [abs_le] <;> constructor <;>
    first
      | (push_neg at *; linarith)
      | linarith

/-- C9 (counterexample): adding a feature with
`reach = 1, impact = 1, confidence = 100, effort = 3` stores
`rice_score = 0.33`, which differs from the exact RICE value
`1 * 1 * (100/100) / 3 = 1/3`. -/
theorem C9_counterexample :
    (add_feature ⟨[]⟩ "f" 1 1 100 3).features.getLast?
      = some { name := "f", reach := 1, impact := 1, confidence := 100, effort := 3,
               rice_score := 33 / 100 } ∧
    (33 : ℚ) / 100 ≠ (1 * 1 * ((100 : ℚ) / 100)) / 3 := by
  constructor
  · rw [add_feature, List.getLast?_concat]
    norm_num [pyRound2]
  · norm_num

/-- C9 amended: the stored `rice_score` is the exact RICE value
`reach * impact * (confidence/100) / effort` rounded to two decimal places
(`round(·, 2)`), and therefore differs from the exact value by at most
0.005. -/
theorem C9_amended (st : RICEPrioritization) (nm : String)
    (reach impact confidence effort : ℚ)
    (heff : 0 < effort) (hconf0 : 0 < confidence) (hconf1 : confidence ≤ 100) :
    (add_feature st nm reach impact confidence effort).features.getLast?
      = some { name := nm, reach := reach, impact := impact, confidence := confidence,
               effort := effort,
               rice_score := pyRound2 ((reach * impact * (confidence / 100)) / effort) } ∧
    |pyRound2 ((reach * impact * (confidence / 100)) / effort)
      - (reach * impact * (confidence / 100)) / effort| ≤ 1 / 200 := by
  constructor
  · rw [add_feature, List.getLast?_concat]
  · exact pyRound2_close _

/-- Witness for C9 amended at the counterexample input. -/
theorem C9_amended_witness :
    (add_feature ⟨[]⟩ "f" 1 1 100 3).features.getLast?
      = some { name := "f", reach := 1, impact := 1, confidence := 100, effort := 3,
               rice_score := pyRound2 ((1 * 1 * ((100 : ℚ) / 100)) / 3) } ∧
    |pyRound2 ((1 * 1 * ((100 : ℚ) / 100)) / 3)
      - (1 * 1 * ((100 : ℚ) / 100)) / 3| ≤ 1 / 200 :=
  C9_amended ⟨[]⟩ "f" 1 1 100 3 (by norm_num) (by norm_num) (by norm_num)

/-! ### Prioritized list: descending sort of the stored features (C10) -/

lemma rice_le_trans : ∀ a b c : Feature,
    decide (b.rice_score ≤ a.rice_score) = true →
    decide (c.rice_score ≤ b.rice_score) = true →
    decide (c.rice_score ≤ a.rice_score) = true := by
  intro a b c hab hbc
  exact decide_eq_true (le_trans (of_decide_eq_true hbc) (of_decide_eq_true hab))

lemma rice_le_total : ∀ a b : Feature,
    (decide (b.rice_score ≤ a.rice_score) || decide (a.rice_score ≤ b.rice_score)) = true := by
  intro a b
  simp only [Bool.or_eq_true, decide_eq_true_eq]
  exact le_total b.rice_score a.rice_score

lemma get_prioritized_list_sorted (st : RICEPrioritization) :
    List.Pairwise (fun a b : Feature => b.rice_score ≤ a.rice_score)
      (get_prioritized_list st) := by
  have h : List.Pairwise
      (fun a b : Feature => decide (b.rice_score ≤ a.rice_score) = true)
      (st.features.mergeSort (fun a b => decide (b.rice_score ≤ a.rice_score))) := by
    have := List.sorted_mergeSort rice_le_trans rice_le_total st.features
    simpa using this
  exact h.imp (fun hab => of_decide_eq_true hab)

/-- C10: for every non-empty feature collection, `get_prioritized_list`
returns a permutation of the stored features (nothing added, dropped or
modified) sorted by `rice_score` in non-increasing order, and every stored
feature's score is at most the first returned row's score. -/
theorem C10_prioritized_list (st : RICEPrioritization) (hne : st.features ≠ []) :
    (get_prioritized_list st).Perm st.features ∧
    List.Pairwise (fun a b : Feature => b.rice_score ≤ a.rice_score)
      (get_prioritized_list st) ∧
    ∀ f ∈ st.features, f.rice_score ≤ ((get_prioritized_list st).headI).rice_score := by
  have hperm : (get_prioritized_list st).Perm st.features :=
    List.mergeSort_perm st.features _
  have hsorted := get_prioritized_list_sorted st
  refine ⟨hperm, hsorted, ?_⟩
  intro f hf
  have hf' : f ∈ get_prioritized_list st := hperm.mem_iff.mpr hf
  rcases hlist : get_prioritized_list st with _ | ⟨h, t⟩
  · rw [hlist] at hf'
    cases hf'
  · rw [hlist] at hf' hsorted
    rw [List.headI]
    rcases List.mem_cons.mp hf' with rfl | hmem
    · exact le_refl _
    · exact (List.pairwise_cons.mp hsorted).1 f hmem

/-- Witness for C10 on a two-feature collection. -/
theorem C10_prioritized_list_witness :
    (get_prioritized_list ⟨[⟨"a", 1, 1, 100, 1, 1⟩, ⟨"b", 2, 1, 100, 1, 2⟩]⟩).Perm
      [⟨"a", 1, 1, 100, 1, 1⟩, ⟨"b", 2, 1, 100, 1, 2⟩] ∧
    List.Pairwise (fun a b : Feature => b.rice_score ≤ a.rice_score)
      (get_prioritized_list ⟨[⟨"a", 1, 1, 100, 1, 1⟩, ⟨"b", 2, 1, 100, 1, 2⟩]⟩) ∧
    ∀ f ∈ [(⟨"a", 1, 1, 100, 1, 1⟩ : Feature), ⟨"b", 2, 1, 100, 1, 2⟩],
      f.rice_score ≤
        ((get_prioritized_list
          ⟨[⟨"a", 1, 1, 100, 1, 1⟩, ⟨"b", 2, 1, 100, 1, 2⟩]⟩).headI).rice_score :=
  C10_prioritized_list ⟨[⟨"a", 1, 1, 100, 1, 1⟩, ⟨"b", 2, 1, 100, 1, 2⟩]⟩ (by simp)

/-- C6 (counterexample to the unrestricted claim): with a zero control
rate (`control_successes = 0`, totals 1000, pooled proportion inside
(0,1) for both inputs), increasing `treatment_successes` from 100 to 200
does not strictly increase `lift_percent`: the lift is a division by zero
on both sides (infinity or NaN in the float implementation, 0 in this
real-number model), and the comparison fails. -/
theorem C6_counterexample :
    0 < pPooled 0 1000 100 1000 ∧ pPooled 0 1000 100 1000 < 1 ∧
    0 < pPooled 0 1000 200 1000 ∧ pPooled 0 1000 200 1000 < 1 ∧
    ¬ ((run_z_test_core 0 1000 100 1000 (1 / 20)).lift_percent
        < (run_z_test_core 0 1000 200 1000 (1 / 20)).lift_percent) := by
  refine ⟨by norm_num [pPooled], by norm_num [pPooled],
    by norm_num [pPooled], by norm_num [pPooled], ?_⟩
  rw [core_lift, core_lift, conversionRate_zero_conv]
  simp
